import Mathlib

/-!
Verification model of the SSH relay server (src/server.js).

The relay receives message frames on a WebSocket; the first frame is a JSON
handshake (SessionConfig), subsequent frames are either a JSON resize control
frame or opaque input forwarded to the SSH shell stream.  Frames are modelled
as byte lists; JavaScript JSON values produced by JSON.parse are modelled by
the inductive type JVal below, and JSON.parse itself by an executable
recursive-descent parser restricted to integer numeric literals and to the
single-character escape sequences (no \u escapes).
-/

namespace SSHRelay

/-- A JavaScript value produced by JSON.parse.  Strings are kept as their
byte sequences so that frame payloads stay byte-identical end to end. -/
inductive JVal where
  | jnull
  | jbool (b : Bool)
  | jnum (n : Int)
  | jstr (s : List Nat)
  | jarr (elems : List JVal)
  | jobj (fields : List (List Nat × JVal))

/-- Bytes of an ASCII string literal; for code points below 128 the UTF-8
byte equals the code point, and every literal used in this development is
ASCII. -/
def strBytes (s : String) : List Nat := s.data.map Char.toNat

/-- JSON whitespace bytes: space, tab, line feed, carriage return. -/
def isWsByte (b : Nat) : Bool := b = 32 || b = 9 || b = 10 || b = 13

/-- Drop leading JSON whitespace. -/
def skipWs : List Nat → List Nat
  | [] => []
  | b :: rest => if isWsByte b then skipWs rest else b :: rest

/-- Decoded byte of a single-character JSON escape sequence. -/
def escByte (e : Nat) : Option Nat :=
  if e = 34 then some 34
  else if e = 92 then some 92
  else if e = 47 then some 47
  else if e = 98 then some 8
  else if e = 102 then some 12
  else if e = 110 then some 10
  else if e = 114 then some 13
  else if e = 116 then some 9
  else none

/-- Parse the body of a JSON string literal after the opening quote; returns
the decoded bytes and the remaining input after the closing quote. -/
def parseStringBody : List Nat → Option (List Nat × List Nat)
  | [] => none
  | b :: rest =>
    if b = 34 then some ([], rest)
    else if b = 92 then
      match rest with
      | [] => none
      | e :: rest2 =>
        match escByte e with
        | none => none
        | some d =>
          match parseStringBody rest2 with
          | none => none
          | some (s, r) => some (d :: s, r)
    else if b < 32 then none
    else
      match parseStringBody rest with
      | none => none
      | some (s, r) => some (b :: s, r)

/-- Split a leading run of decimal digit bytes from the input. -/
def takeDigits : List Nat → List Nat × List Nat
  | [] => ([], [])
  | b :: rest =>
    if 48 ≤ b && b ≤ 57 then
      let p := takeDigits rest
      (b :: p.1, p.2)
    else ([], b :: rest)

/-- Numeric value of a run of decimal digit bytes. -/
def digitsToNat (ds : List Nat) : Nat := ds.foldl (fun a d => a * 10 + (d - 48)) 0

/-- Parsing mode: a single value, the fields of an object after the opening
brace or a comma, or the elements of an array after the opening bracket or a
comma. -/
inductive PMode where
  | value
  | objFields (first : Bool)
  | arrElems (first : Bool)

/-- Result of one parsing mode. -/
inductive PRes where
  | val (v : JVal)
  | fields (fs : List (List Nat × JVal))
  | elems (es : List JVal)

/-- Fuel-indexed recursive-descent JSON parser core. -/
def parseCore : Nat → PMode → List Nat → Option (PRes × List Nat)
  | 0, _, _ => none
  | Nat.succ fuel, PMode.value, s =>
    match skipWs s with
    | [] => none
    | b :: rest =>
      if b = 123 then
        match parseCore fuel (PMode.objFields true) rest with
        | some (PRes.fields fs, r) => some (PRes.val (JVal.jobj fs), r)
        | _ => none
      else if b = 91 then
        match parseCore fuel (PMode.arrElems true) rest with
        | some (PRes.elems es, r) => some (PRes.val (JVal.jarr es), r)
        | _ => none
      else if b = 34 then
        match parseStringBody rest with
        | none => none
        | some (str, r) => some (PRes.val (JVal.jstr str), r)
      else if b = 116 then
        match rest with
        | r1 :: r2 :: r3 :: r =>
          if r1 = 114 && r2 = 117 && r3 = 101 then some (PRes.val (JVal.jbool true), r)
          else none
        | _ => none
      else if b = 102 then
        match rest with
        | r1 :: r2 :: r3 :: r4 :: r =>
          if r1 = 97 && r2 = 108 && r3 = 115 && r4 = 101 then
            some (PRes.val (JVal.jbool false), r)
          else none
        | _ => none
      else if b = 110 then
        match rest with
        | r1 :: r2 :: r3 :: r =>
          if r1 = 117 && r2 = 108 && r3 = 108 then some (PRes.val JVal.jnull, r)
          else none
        | _ => none
      else if b = 45 then
        match takeDigits rest with
        | ([], _) => none
        | (ds, r) => some (PRes.val (JVal.jnum (-(digitsToNat ds : Int))), r)
      else if 48 ≤ b && b ≤ 57 then
        let p := takeDigits (b :: rest)
        some (PRes.val (JVal.jnum (digitsToNat p.1)), p.2)
      else none
  | Nat.succ fuel, PMode.objFields first, s =>
    match skipWs s with
    | [] => none
    | b :: rest =>
      if first && b = 125 then some (PRes.fields [], rest)
      else if b = 34 then
        match parseStringBody rest with
        | none => none
        | some (key, r1) =>
          match skipWs r1 with
          | [] => none
          | c :: r2 =>
            if c = 58 then
              match parseCore fuel PMode.value r2 with
              | some (PRes.val v, r3) =>
                match skipWs r3 with
                | [] => none
                | d :: r4 =>
                  if d = 44 then
                    match parseCore fuel (PMode.objFields false) r4 with
                    | some (PRes.fields fs, r5) => some (PRes.fields ((key, v) :: fs), r5)
                    | _ => none
                  else if d = 125 then some (PRes.fields [(key, v)], r4)
                  else none
              | _ => none
            else none
      else none
  | Nat.succ fuel, PMode.arrElems first, s =>
    match skipWs s with
    | [] => none
    | b :: rest =>
      if first && b = 93 then some (PRes.elems [], rest)
      else
        match parseCore fuel PMode.value (b :: rest) with
        | some (PRes.val v, r1) =>
          match skipWs r1 with
          | [] => none
          | c :: r2 =>
            if c = 44 then
              match parseCore fuel (PMode.arrElems false) r2 with
              | some (PRes.elems es, r3) => some (PRes.elems (v :: es), r3)
              | _ => none
            else if c = 93 then some (PRes.elems [v], r2)
            else none
        | _ => none

/-- Model of JavaScript JSON.parse applied to the UTF-8 decode of a frame
buffer (raw.toString()).  Restricted to integer numeric literals and
single-character escapes; the parse succeeds only when the rest of the input
is whitespace, mirroring JSON.parse rejecting trailing garbage. -/
def jsonParse (bytes : List Nat) : Option JVal :=
  match parseCore (bytes.length + 1) PMode.value bytes with
  | some (PRes.val v, rest) => if (skipWs rest).isEmpty then some v else none
  | _ => none

/-- Property access msg[key] on a parsed JSON value: only objects have own
fields; with duplicate keys JSON.parse keeps the last occurrence.  The result
none models the JavaScript value undefined. -/
def getField (v : JVal) (key : List Nat) : Option JVal :=
  match v with
  | JVal.jobj fs => (fs.reverse.find? (fun kv => decide (kv.1 = key))).map (fun kv => kv.2)
  | _ => none

/-- JavaScript truthiness of an optional value (none models undefined). -/
def jsTruthy : Option JVal → Bool
  | none => false
  | some JVal.jnull => false
  | some (JVal.jbool b) => b
  | some (JVal.jnum n) => decide (n ≠ 0)
  | some (JVal.jstr s) => decide (s ≠ [])
  | some (JVal.jarr _) => true
  | some (JVal.jobj _) => true

/-- The guard msg.type === the string resize: strict equality of the type
field with that string. -/
def typeIsResize (m : JVal) : Bool :=
  match getField m (strBytes "type") with
  | some (JVal.jstr s) => decide (s = strBytes "resize")
  | _ => false

/-- JavaScript ToNumber for the setWindow arguments, restricted to the value
shapes exercised by the relay: numbers map to themselves, null to 0, booleans
to 0 or 1; undefined and the remaining shapes give NaN, modelled as none
(numeric strings are not modelled). -/
def toNumber : Option JVal → Option Int
  | some (JVal.jnum n) => some n
  | some JVal.jnull => some 0
  | some (JVal.jbool b) => some (if b then 1 else 0)
  | _ => none

/-- The product msg.field * k as computed by JavaScript, none modelling NaN. -/
def jsMul (a : Option JVal) (k : Int) : Option Int :=
  (toNumber a).map (fun n => n * k)

/-- The JavaScript expression v || dflt as used for cfg.cols, cfg.rows and
similar fallbacks: the left value when truthy, the default otherwise. -/
def jsOr (v : Option JVal) (dflt : JVal) : JVal :=
  match v with
  | some x => if jsTruthy (some x) then x else dflt
  | none => dflt

/-- Relevant process environment at supervisor start (none models an unset
variable). -/
structure Env where
  useAuthVar : Option String
  allowedSshHosts : Option String

/-- The constant USE_AUTH in server.js: process.env.USE_AUTH compared for
strict inequality with the literal string false; an unset variable therefore
leaves authentication enforced. -/
def useAuth (e : Env) : Bool := decide (e.useAuthVar ≠ some "false")

/-- Whitespace characters removed by the JavaScript trim method (restricted
to the ASCII whitespace characters). -/
def isTrimChar (c : Char) : Bool := c = ' ' || c = '\t' || c = '\n' || c = '\r'

/-- Drop leading whitespace from a character list. -/
def dropLeadingWsChars : List Char → List Char
  | [] => []
  | c :: rest => if isTrimChar c then dropLeadingWsChars rest else c :: rest

/-- Model of the JavaScript string trim method: whitespace removed from both
ends. -/
def trimJS (s : String) : String :=
  String.mk (dropLeadingWsChars (dropLeadingWsChars s.data.reverse).reverse)

/-- Split a character list on commas; the empty list yields one empty group,
matching the JavaScript split method on the empty string. -/
def splitCommaChars : List Char → List (List Char)
  | [] => [[]]
  | c :: rest =>
    if c = ',' then [] :: splitCommaChars rest
    else
      match splitCommaChars rest with
      | [] => [[c]]
      | g :: gs => (c :: g) :: gs

/-- Model of the JavaScript split method with a comma separator. -/
def splitComma (s : String) : List String := (splitCommaChars s.data).map String.mk

/-- The constant ALLOWED in server.js: the ALLOWED_SSH_HOSTS variable (empty
string when unset) split on commas, each entry trimmed, empty entries
removed by the Boolean filter. -/
def ALLOWED (e : Env) : List String :=
  ((splitComma (e.allowedSshHosts.getD "")).map trimJS).filter
    (fun s => decide (s ≠ ""))

/-- assertAllowedHost in server.js: with an empty allow-list every host is
admitted; otherwise the host must be an exact member of the list, and a
rejected host raises the error message used as the close reason. -/
def assertAllowedHost (e : Env) (host : String) : Except String Unit :=
  if (ALLOWED e).length = 0 then Except.ok ()
  else if (ALLOWED e).contains host then Except.ok ()
  else Except.error ("Host " ++ host ++ " nu este permis")

/-- A target record from the servers.json store. -/
structure Server where
  id : String
  name : String
  host : String
  port : Option Int
  username : String

/-- The strict comparison s.id === cfg.serverId between a stored id string
and the parsed serverId field of the handshake: true exactly when the field
is a string with the same bytes. -/
def sidEq (sid : Option JVal) (id : String) : Bool :=
  match sid with
  | some (JVal.jstr s) => decide (s = strBytes id)
  | _ => false

/-- servers.find matching on s.id === cfg.serverId. -/
def findServer (servers : List Server) (sid : Option JVal) : Option Server :=
  servers.find? (fun s => sidEq sid s.id)

/-- The connect option port: srv.port || 22 (a missing or zero port falls
back to 22). -/
def connectPort (srv : Server) : Int :=
  match srv.port with
  | some p => if p = 0 then 22 else p
  | none => 22

/-- The USE_AUTH block of the first-message handler: a falsy cfg.token throws
Missing JWT before verification; otherwise jwt.verify is applied to the
token.  jwt.verify from the jsonwebtoken library is external code, modelled
by the predicate verify on the token bytes; a truthy non-string token makes
jwt.verify throw and is therefore rejected as well. -/
def tokenAccepted (verify : List Nat → Bool) (t : Option JVal) : Bool :=
  if jsTruthy t then
    match t with
    | some (JVal.jstr s) => verify s
    | _ => false
  else false

/-- Outcome of the first-message (handshake) branch. -/
inductive HsResult where
  | closeClient (code : Nat) (reason : String)
  | dial (host : String) (port : Int) (username : String)

/-- The first-message branch of the connection handler in server.js: parse
the frame as JSON (close 1008 when it is not JSON); when USE_AUTH is on,
close 1008 with reason JWT invalid unless the token is accepted; look the
serverId up in the store (close 1008 with reason Server necunoscut when
absent); check host admission (close 1008 with the raised message when
denied); otherwise create the SSH client and connect to the target. -/
def handleFirstMessage (env : Env) (verify : List Nat → Bool)
    (servers : List Server) (raw : List Nat) : HsResult :=
  match jsonParse raw with
  | none => HsResult.closeClient 1008 "Primul mesaj trebuie să fie JSON"
  | some cfg =>
    if useAuth env && !tokenAccepted verify (getField cfg (strBytes "token")) then
      HsResult.closeClient 1008 "JWT invalid"
    else
      match findServer servers (getField cfg (strBytes "serverId")) with
      | none => HsResult.closeClient 1008 "Server necunoscut"
      | some srv =>
        match assertAllowedHost env srv.host with
        | Except.error msg => HsResult.closeClient 1008 msg
        | Except.ok _ => HsResult.dial srv.host (connectPort srv) srv.username

/-- Effect of one non-first message frame. -/
inductive MsgEffect where
  | setWindow (rows cols : Option JVal) (px1 px2 : Option Int)
  | streamWrite (bytes : List Nat)
  | dropped

/-- The non-first branch of the message handler in server.js: JSON.parse the
frame opportunistically; a parsed value whose type field is the string resize
becomes, while the stream exists, a single setWindow call with arguments
rows, cols, cols * 8, rows * 16 and the handler returns; every other frame is
written verbatim to the shell stream when it exists and is otherwise
discarded (a property access throwing on a parsed null lands in the same
catch as a parse failure and also falls through to the write). -/
def handleLaterMessage (streamExists : Bool) (raw : List Nat) : MsgEffect :=
  match jsonParse raw with
  | some msg =>
    if typeIsResize msg && streamExists then
      MsgEffect.setWindow (getField msg (strBytes "rows")) (getField msg (strBytes "cols"))
        (jsMul (getField msg (strBytes "cols")) 8)
        (jsMul (getField msg (strBytes "rows")) 16)
    else if streamExists then MsgEffect.streamWrite raw
    else MsgEffect.dropped
  | none => if streamExists then MsgEffect.streamWrite raw else MsgEffect.dropped

/-- The options object passed to ssh.shell in the ready callback: terminal
type xterm-256color, cols cfg.cols || 80 and rows cfg.rows || 24. -/
structure ShellOpts where
  term : String
  cols : JVal
  rows : JVal

/-- Build the ssh.shell options from the parsed handshake value. -/
def shellOpts (cfg : JVal) : ShellOpts :=
  { term := "xterm-256color"
  , cols := jsOr (getField cfg (strBytes "cols")) (JVal.jnum 80)
  , rows := jsOr (getField cfg (strBytes "rows")) (JVal.jnum 24) }

/-- Observable side effects of the connection handler. -/
inductive Effect where
  | wsClose (code : Nat) (reason : String)
  | wsCloseDefault
  | sshConnect (host : String) (port : Int) (username : String)
  | setWindow (rows cols : Option JVal) (px1 px2 : Option Int)
  | streamWrite (bytes : List Nat)
  | wsSend (bytes : List Nat)
  | wsSendErrLine (msg : String)
  | streamCloseReq
  | sshEndReq

/-- Events a connection handler reacts to: client frames and close, the
shell being granted or denied after the SSH transport is ready, data from
the shell stream and its stderr, an SSH-level error, and the shell stream
closing. -/
inductive Event where
  | message (raw : List Nat)
  | clientClose
  | shellGranted
  | shellDenied (msg : String)
  | sshData (d : List Nat)
  | sshStderrData (d : List Nat)
  | sshError (msg : String)
  | streamClose

/-- Mutable per-connection state of the handler: whether the ssh and stream
variables are set and the alive flag. -/
structure Conn where
  sshExists : Bool
  streamExists : Bool
  alive : Bool

/-- State at connection accept: ssh and stream unset, alive true. -/
def connStart : Conn := { sshExists := false, streamExists := false, alive := true }

/-- One transition of the connection handler, returning the new state and
the effects emitted, translated callback by callback from server.js:
a message is dispatched on whether ssh is set; client close clears alive and
requests stream close and ssh end on the handles that exist; shell grant
sets the stream; shell denial closes 1011; stream and stderr data are sent
to the client only while alive; an SSH error sends one diagnostic line
(unconditionally) and closes; stream close closes the client. -/
def step (env : Env) (verify : List Nat → Bool) (servers : List Server)
    (c : Conn) (e : Event) : Conn × List Effect :=
  match e with
  | Event.message raw =>
    if c.sshExists then
      match handleLaterMessage c.streamExists raw with
      | MsgEffect.setWindow r co p1 p2 => (c, [Effect.setWindow r co p1 p2])
      | MsgEffect.streamWrite bs => (c, [Effect.streamWrite bs])
      | MsgEffect.dropped => (c, [])
    else
      match handleFirstMessage env verify servers raw with
      | HsResult.closeClient code reason => (c, [Effect.wsClose code reason])
      | HsResult.dial h p u => ({ c with sshExists := true }, [Effect.sshConnect h p u])
  | Event.clientClose =>
    ({ c with alive := false },
      (if c.streamExists then [Effect.streamCloseReq] else []) ++
      (if c.sshExists then [Effect.sshEndReq] else []))
  | Event.shellGranted => ({ c with streamExists := true }, [])
  | Event.shellDenied msg => (c, [Effect.wsClose 1011 ("PTY error: " ++ msg)])
  | Event.sshData d => (c, if c.alive then [Effect.wsSend d] else [])
  | Event.sshStderrData d => (c, if c.alive then [Effect.wsSend d] else [])
  | Event.sshError msg => (c, [Effect.wsSendErrLine msg, Effect.wsCloseDefault])
  | Event.streamClose => (c, [Effect.wsCloseDefault])

/-- Run the connection handler over a list of events, concatenating the
emitted effects. -/
def run (env : Env) (verify : List Nat → Bool) (servers : List Server) :
    Conn → List Event → Conn × List Effect
  | c, [] => (c, [])
  | c, e :: es =>
    let p := step env verify servers c e
    let q := run env verify servers p.1 es
    (q.1, p.2 ++ q.2)

/-- Whether an effect is an SSH connection attempt. -/
def isConnect : Effect → Bool
  | Effect.sshConnect _ _ _ => true
  | _ => false

/-- Number of SSH connection attempts among a list of effects. -/
def countConnects (effs : List Effect) : Nat := effs.countP isConnect

/- Concrete values used by witnesses and counterexamples. -/

/-- An environment with both variables unset: authentication enforced,
allow-list empty. -/
def envNone : Env := { useAuthVar := none, allowedSshHosts := none }

/-- An environment disabling authentication. -/
def envNoAuth : Env := { useAuthVar := some "false", allowedSshHosts := none }

/-- An environment disabling authentication and restricting hosts to
10.0.0.2. -/
def envAllow : Env := { useAuthVar := some "false", allowedSshHosts := some "10.0.0.2" }

/-- A verifier accepting no token. -/
def verifyNone : List Nat → Bool := fun _ => false

/-- The target of the happy-path scenario. -/
def t1 : Server :=
  { id := "t1", name := "t1", host := "10.0.0.2", port := some 22, username := "ada" }

/-- A target whose host is outside the envAllow allow-list. -/
def t9 : Server :=
  { id := "t9", name := "t9", host := "10.0.0.9", port := some 22, username := "ada" }

/-- Connection state with the SSH client and the shell stream both present. -/
def readyConn : Conn := { sshExists := true, streamExists := true, alive := true }

/-- Connection state in the dialing window: the SSH client exists, the shell
stream does not. -/
def dialingConn : Conn := { sshExists := true, streamExists := false, alive := true }

/-- The ambiguous text frame of scenario 6 (a JSON object whose type field is
the string other). -/
def otherFrame : List Nat := strBytes "\x7b\"type\":\"other\"\x7d"

/-- The resize frame of scenario 5, rows 50 and cols 200. -/
def resizeFrame50 : List Nat := strBytes "\x7b\"type\":\"resize\",\"rows\":50,\"cols\":200\x7d"

/-- A handshake-shaped frame naming target t1. -/
def hsFrameT1 : List Nat := strBytes "\x7b\"serverId\":\"t1\",\"cols\":120,\"rows\":40\x7d"

/-- The parsed value of hsFrameT1. -/
def hsValT1 : JVal :=
  JVal.jobj [(strBytes "serverId", JVal.jstr (strBytes "t1")),
             (strBytes "cols", JVal.jnum 120),
             (strBytes "rows", JVal.jnum 40)]

/-- A handshake frame naming an unknown target. -/
def hsFrameMissing : List Nat := strBytes "\x7b\"serverId\":\"missing\"\x7d"

/-- A handshake frame naming target t9. -/
def hsFrameT9 : List Nat := strBytes "\x7b\"serverId\":\"t9\"\x7d"

/-- A frame that starts like a resize control frame but is not valid JSON. -/
def malformedResizeFrame : List Nat := strBytes "\x7b\"type\":\"resize\""

/-- A parsed handshake whose cols and rows fields are both zero. -/
def cfgZero : JVal :=
  JVal.jobj [(strBytes "cols", JVal.jnum 0), (strBytes "rows", JVal.jnum 0)]

/- Helper lemmas shared by the claim theorems. -/

/-- Without a shell stream, every non-first frame is silently dropped. -/
theorem handleLaterMessage_noStream (raw : List Nat) :
    handleLaterMessage false raw = MsgEffect.dropped := by
  unfold handleLaterMessage
  cases h : jsonParse raw <;> simp

/-- One step never resurrects a cleared alive flag. -/
theorem step_alive_false (env : Env) (verify : List Nat → Bool)
    (servers : List Server) (c : Conn) (e : Event) (h : c.alive = false) :
    ((step env verify servers c e).1).alive = false := by
  cases e with
  | message raw =>
    unfold step
    by_cases hs : c.sshExists = true
    · simp only [hs, if_true]
      cases handleLaterMessage c.streamExists raw <;> simpa
    · simp only [Bool.not_eq_true] at hs
      simp only [hs, Bool.false_eq_true, if_false]
      cases handleFirstMessage env verify servers raw <;> simpa
  | clientClose => simp [step]
  | shellGranted => simpa [step]
  | shellDenied msg => simpa [step]
  | sshData d => simpa [step]
  | sshStderrData d => simpa [step]
  | sshError msg => simpa [step]
  | streamClose => simpa [step]

/-- A run never resurrects a cleared alive flag. -/
theorem run_alive_false (env : Env) (verify : List Nat → Bool)
    (servers : List Server) (evs : List Event) :
    ∀ c : Conn, c.alive = false →
      ((run env verify servers c evs).1).alive = false := by
  induction evs with
  | nil => intro c h; simpa [run]
  | cons e es ih =>
    intro c h
    simpa [run] using ih _ (step_alive_false env verify servers c e h)

/-- With the SSH client already created, one step creates no further SSH
connection and keeps the client created. -/
theorem step_ssh_true (env : Env) (verify : List Nat → Bool)
    (servers : List Server) (c : Conn) (e : Event) (h : c.sshExists = true) :
    ((step env verify servers c e).1).sshExists = true ∧
      countConnects (step env verify servers c e).2 = 0 := by
  cases e with
  | message raw =>
    unfold step
    simp only [h, if_true]
    cases handleLaterMessage c.streamExists raw <;>
      simp [h, countConnects, isConnect]
  | clientClose =>
    refine ⟨by simpa [step], ?_⟩
    simp only [step, countConnects]
    rw [List.countP_append]
    cases hs : c.streamExists <;> simp [h, isConnect]
  | shellGranted => simp [step, h, countConnects]
  | shellDenied msg => simp [step, h, countConnects, isConnect]
  | sshData d =>
    refine ⟨by simpa [step], ?_⟩
    simp only [step]
    cases ha : c.alive <;> simp [countConnects, isConnect]
  | sshStderrData d =>
    refine ⟨by simpa [step], ?_⟩
    simp only [step]
    cases ha : c.alive <;> simp [countConnects, isConnect]
  | sshError msg => simp [step, h, countConnects, isConnect]
  | streamClose => simp [step, h, countConnects, isConnect]

/-- With the SSH client already created, a run creates no further SSH
connection. -/
theorem run_connects_zero (env : Env) (verify : List Nat → Bool)
    (servers : List Server) (evs : List Event) :
    ∀ c : Conn, c.sshExists = true →
      countConnects (run env verify servers c evs).2 = 0 := by
  induction evs with
  | nil => intro c h; simp [run, countConnects]
  | cons e es ih =>
    intro c h
    have hs := step_ssh_true env verify servers c e h
    simp only [run, countConnects, List.countP_append]
    have h1 := hs.2
    have h2 := ih _ hs.1
    simp only [countConnects] at h1 h2
    omega

/-- Any single step either creates no SSH connection, or creates exactly one
and records the SSH client as existing. -/
theorem step_connects_cases (env : Env) (verify : List Nat → Bool)
    (servers : List Server) (c : Conn) (e : Event) :
    countConnects (step env verify servers c e).2 = 0 ∨
      (((step env verify servers c e).1).sshExists = true ∧
        countConnects (step env verify servers c e).2 = 1) := by
  cases e with
  | message raw =>
    unfold step
    by_cases h : c.sshExists = true
    · simp only [h, if_true]
      left
      cases handleLaterMessage c.streamExists raw <;>
        simp [countConnects, isConnect]
    · simp only [Bool.not_eq_true] at h
      simp only [h, Bool.false_eq_true, if_false]
      cases hf : handleFirstMessage env verify servers raw with
      | closeClient code reason => left; simp [countConnects, isConnect]
      | dial hh pp uu => right; simp [countConnects, isConnect]
  | clientClose =>
    left
    simp only [step, countConnects]
    rw [List.countP_append]
    cases hs : c.streamExists <;> cases hx : c.sshExists <;> simp [isConnect]
  | shellGranted => left; simp [step, countConnects]
  | shellDenied msg => left; simp [step, countConnects, isConnect]
  | sshData d =>
    left
    simp only [step]
    cases ha : c.alive <;> simp [countConnects, isConnect]
  | sshStderrData d =>
    left
    simp only [step]
    cases ha : c.alive <;> simp [countConnects, isConnect]
  | sshError msg => left; simp [step, countConnects, isConnect]
  | streamClose => left; simp [step, countConnects, isConnect]

/-- From any state, a run creates at most one SSH connection. -/
theorem run_connects_le_one (env : Env) (verify : List Nat → Bool)
    (servers : List Server) (evs : List Event) :
    ∀ c : Conn, countConnects (run env verify servers c evs).2 ≤ 1 := by
  induction evs with
  | nil => intro c; simp [run, countConnects]
  | cons e es ih =>
    intro c
    have hsplit : countConnects (run env verify servers c (e :: es)).2 =
        countConnects (step env verify servers c e).2 +
          countConnects (run env verify servers (step env verify servers c e).1 es).2 := by
      simp [run, countConnects, List.countP_append]
    cases step_connects_cases env verify servers c e with
    | inl h0 =>
      have htail := ih (step env verify servers c e).1
      omega
    | inr hb =>
      have htail := run_connects_zero env verify servers es _ hb.1
      have hone := hb.2
      omega

/-- C1: with the shell stream present, a frame whose payload parses as JSON
with type field resize is treated as a Resize control frame (a setWindow
call), and every other frame, JSON or not, is written to the shell stream
byte-identical; the counterexample below shows that the concrete text frame
of the claim is forwarded as the 16 bytes of its payload, not 14, so this
theorem states the claim amended to 16 bytes. -/
theorem frame_dispatch_after_handshake (raw : List Nat) :
    (∀ m, jsonParse raw = some m → typeIsResize m = true →
      ∃ r co p1 p2, handleLaterMessage true raw = MsgEffect.setWindow r co p1 p2) ∧
    ((∀ m, jsonParse raw = some m → typeIsResize m = false) →
      handleLaterMessage true raw = MsgEffect.streamWrite raw) ∧
    (handleLaterMessage true otherFrame = MsgEffect.streamWrite otherFrame ∧
      otherFrame.length = 16) := by
  refine ⟨?_, ?_, rfl, by decide⟩
  · intro m hp ht
    exact ⟨getField m (strBytes "rows"), getField m (strBytes "cols"),
      jsMul (getField m (strBytes "cols")) 8, jsMul (getField m (strBytes "rows")) 16,
      by simp [handleLaterMessage, hp, ht]⟩
  · intro hall
    cases h : jsonParse raw with
    | none => simp [handleLaterMessage, h]
    | some m => simp [handleLaterMessage, h, hall m h]

/-- C1 counterexample: the text frame of the claim has a 16-byte payload, and
the relay forwards exactly that payload to the shell, so it is not forwarded
as 14 bytes. -/
theorem frame_dispatch_fourteen_bytes_false :
    handleLaterMessage true otherFrame = MsgEffect.streamWrite otherFrame ∧
      otherFrame.length = 16 ∧ ¬ otherFrame.length = 14 :=
  ⟨rfl, by decide, by decide⟩

/-- C1 witness: the concrete resize frame becomes a window change and the
concrete non-resize text frame is forwarded unchanged as its 16 bytes. -/
theorem frame_dispatch_after_handshake_witness :
    (∃ r co p1 p2,
      handleLaterMessage true resizeFrame50 = MsgEffect.setWindow r co p1 p2) ∧
    (handleLaterMessage true otherFrame = MsgEffect.streamWrite otherFrame ∧
      otherFrame.length = 16) :=
  ⟨(frame_dispatch_after_handshake resizeFrame50).1 _ rfl rfl,
   (frame_dispatch_after_handshake otherFrame).2.2⟩

/-- C8: a malformed resize frame, one that fails to parse as JSON, arriving
while the shell stream exists, is not treated as a control frame: its payload
is written to the shell as input, the state is unchanged, and no error or
close is emitted (a locally recovered condition). -/
theorem malformed_resize_treated_as_input (env : Env) (verify : List Nat → Bool)
    (servers : List Server) (c : Conn) (raw : List Nat)
    (hssh : c.sshExists = true) (hstr : c.streamExists = true)
    (hbad : jsonParse raw = none) :
    step env verify servers c (Event.message raw) = (c, [Effect.streamWrite raw]) := by
  unfold step
  simp [hssh, handleLaterMessage, hbad, hstr]

/-- C8 witness: a truncated resize frame is invalid JSON and is forwarded to
the shell verbatim in the ready state. -/
theorem malformed_resize_treated_as_input_witness :
    step envNone verifyNone [] readyConn (Event.message malformedResizeFrame) =
      (readyConn, [Effect.streamWrite malformedResizeFrame]) :=
  malformed_resize_treated_as_input envNone verifyNone [] readyConn
    malformedResizeFrame rfl rfl rfl

/-- C10: in the dialing window, when the SSH client exists but the shell
stream has not been granted, every client frame is silently discarded: the
state is unchanged (nothing is buffered) and no effect is emitted, neither a
window change nor a write nor an error. -/
theorem dialing_window_discards_frames (env : Env) (verify : List Nat → Bool)
    (servers : List Server) (c : Conn) (raw : List Nat)
    (hssh : c.sshExists = true) (hstr : c.streamExists = false) :
    step env verify servers c (Event.message raw) = (c, []) := by
  unfold step
  rw [hstr] at *
  simp [hssh, handleLaterMessage_noStream, hstr]

/-- C10 witness: in the dialing window even a well-formed resize frame
produces no state change and no effect. -/
theorem dialing_window_discards_frames_witness :
    step envNone verifyNone [] dialingConn (Event.message resizeFrame50) =
      (dialingConn, []) :=
  dialing_window_discards_frames envNone verifyNone [] dialingConn resizeFrame50
    rfl rfl

/-- C2 counterexample: in the ready state a subsequent frame shaped exactly
like a handshake (a JSON SessionConfig) is not treated as a protocol error:
it is written to the shell stream as input, byte-identical, refuting that a
subsequent Handshake never reaches the shell as input. -/
theorem second_handshake_reaches_shell :
    step envNone verifyNone [] readyConn (Event.message hsFrameT1) =
      (readyConn, [Effect.streamWrite hsFrameT1]) := rfl

/-- C2 (amended): at most one Handshake is ever accepted, because any run
issues at most one SSH connection; but a subsequent Handshake-shaped frame is
not a protocol error: while the shell stream exists it is forwarded to the
shell as opaque input, byte-identical, like any other non-resize frame. -/
theorem single_handshake_accepted (env : Env) (verify : List Nat → Bool)
    (servers : List Server) (evs : List Event) (c : Conn) (raw : List Nat)
    (hssh : c.sshExists = true) (hstr : c.streamExists = true)
    (hnr : ∀ m, jsonParse raw = some m → typeIsResize m = false) :
    countConnects (run env verify servers connStart evs).2 ≤ 1 ∧
      step env verify servers c (Event.message raw) =
        (c, [Effect.streamWrite raw]) := by
  refine ⟨run_connects_le_one env verify servers evs connStart, ?_⟩
  unfold step
  simp only [hssh, if_true]
  cases h : jsonParse raw with
  | none => simp [handleLaterMessage, h, hstr]
  | some m => simp [handleLaterMessage, h, hnr m h, hstr]

/-- C2 witness: the concrete run of a single accepted handshake dials once,
and the concrete handshake-shaped frame sent again in the ready state is
forwarded to the shell. -/
theorem single_handshake_accepted_witness :
    countConnects (run envNoAuth verifyNone [t1] connStart
        [Event.message hsFrameT1]).2 ≤ 1 ∧
      step envNoAuth verifyNone [t1] readyConn (Event.message hsFrameT1) =
        (readyConn, [Effect.streamWrite hsFrameT1]) :=
  single_handshake_accepted envNoAuth verifyNone [t1] [Event.message hsFrameT1]
    readyConn hsFrameT1 rfl rfl
    (by
      intro m hp
      have h1 : jsonParse hsFrameT1 = some hsValT1 := rfl
      rw [h1] at hp
      injection hp with h2
      subst h2
      rfl)

/-- C3: a resize frame with integer rows and cols received while the shell
stream exists produces exactly one window-change effect carrying the
character dimensions rows and cols and the synthesized pixel arguments
cols * 8 and rows * 16, with no bytes forwarded to the shell and the state
unchanged. -/
theorem resize_window_change (env : Env) (verify : List Nat → Bool)
    (servers : List Server) (c : Conn) (raw : List Nat) (m : JVal) (r co : Int)
    (hssh : c.sshExists = true) (hstr : c.streamExists = true)
    (hp : jsonParse raw = some m) (ht : typeIsResize m = true)
    (hr : getField m (strBytes "rows") = some (JVal.jnum r))
    (hc : getField m (strBytes "cols") = some (JVal.jnum co)) :
    step env verify servers c (Event.message raw) =
      (c, [Effect.setWindow (some (JVal.jnum r)) (some (JVal.jnum co))
        (some (co * 8)) (some (r * 16))]) := by
  unfold step
  simp [hssh, handleLaterMessage, hp, ht, hstr, hr, hc, jsMul, toNumber]

/-- C3 witness: the concrete resize frame with rows 50 and cols 200 yields a
single window change carrying 50, 200, 1600 and 800. -/
theorem resize_window_change_witness :
    step envNone verifyNone [] readyConn (Event.message resizeFrame50) =
      (readyConn, [Effect.setWindow (some (JVal.jnum 50)) (some (JVal.jnum 200))
        (some 1600) (some 800)]) :=
  resize_window_change envNone verifyNone [] readyConn resizeFrame50 _ 50 200
    rfl rfl rfl rfl rfl rfl

/-- C4: observing the client transport close clears the liveness flag, the
flag never becomes true again over any subsequent events, and data arriving
from the SSH shell stream or its stderr after that point produces no send to
the client transport at all: it is silently dropped. -/
theorem no_send_after_client_close (env : Env) (verify : List Nat → Bool)
    (servers : List Server) (c : Conn) (evs : List Event) (d d2 : List Nat) :
    ((step env verify servers c Event.clientClose).1).alive = false ∧
    (step env verify servers
        ((run env verify servers (step env verify servers c Event.clientClose).1 evs).1)
        (Event.sshData d)).2 = [] ∧
    (step env verify servers
        ((run env verify servers (step env verify servers c Event.clientClose).1 evs).1)
        (Event.sshStderrData d2)).2 = [] := by
  have h0 : ((step env verify servers c Event.clientClose).1).alive = false := by
    simp [step]
  have h1 := run_alive_false env verify servers evs _ h0
  refine ⟨h0, ?_, ?_⟩ <;>
    (simp only [step] at h1 ⊢; simp [h1])

/-- C4 witness: on a concrete session, after client close and an intervening
shell-data event, further shell data and stderr data produce no effects. -/
theorem no_send_after_client_close_witness :
    ((step envNone verifyNone [] readyConn Event.clientClose).1).alive = false ∧
    (step envNone verifyNone []
        ((run envNone verifyNone []
          (step envNone verifyNone [] readyConn Event.clientClose).1
          [Event.sshData (strBytes "x")]).1)
        (Event.sshData (strBytes "a"))).2 = [] ∧
    (step envNone verifyNone []
        ((run envNone verifyNone []
          (step envNone verifyNone [] readyConn Event.clientClose).1
          [Event.sshData (strBytes "x")]).1)
        (Event.sshStderrData (strBytes "b"))).2 = [] :=
  no_send_after_client_close envNone verifyNone [] readyConn
    [Event.sshData (strBytes "x")] (strBytes "a") (strBytes "b")

/-- C5: token verification has exactly the two modes fixed by the USE_AUTH
variable at start.  When the variable is the literal string false the
verifier is disabled: a handshake omitting the token proceeds to the dial.
In every other case enforcement is on: a handshake whose token is missing or
fails verification is closed with code 1008 and reason JWT invalid, for
every possible store (hence before any target lookup) and never dials. -/
theorem auth_mode_gate (env : Env) (verify : List Nat → Bool)
    (raw : List Nat) (m : JVal) :
    (env.useAuthVar = some "false" →
      ∀ (servers : List Server) (srv : Server),
        jsonParse raw = some m →
        getField m (strBytes "token") = none →
        findServer servers (getField m (strBytes "serverId")) = some srv →
        assertAllowedHost env srv.host = Except.ok () →
        handleFirstMessage env verify servers raw =
          HsResult.dial srv.host (connectPort srv) srv.username) ∧
    (env.useAuthVar ≠ some "false" →
      jsonParse raw = some m →
      tokenAccepted verify (getField m (strBytes "token")) = false →
      ∀ servers : List Server,
        handleFirstMessage env verify servers raw =
          HsResult.closeClient 1008 "JWT invalid") := by
  constructor
  · intro henv servers srv hp htok hfind hallow
    have hua : useAuth env = false := by simp [useAuth, henv]
    simp [handleFirstMessage, hp, hua, hfind, hallow]
  · intro hne hp htok servers
    have hua : useAuth env = true := by simp [useAuth, hne]
    simp [handleFirstMessage, hp, hua, htok]

/-- C5 witness: with USE_AUTH set to false a concrete handshake without a
token dials the target, and with USE_AUTH unset the same handshake is closed
with code 1008 and reason JWT invalid even though the target exists. -/
theorem auth_mode_gate_witness :
    handleFirstMessage envNoAuth verifyNone [t1] hsFrameT1 =
        HsResult.dial "10.0.0.2" 22 "ada" ∧
      handleFirstMessage envNone verifyNone [t1] hsFrameT1 =
        HsResult.closeClient 1008 "JWT invalid" :=
  ⟨(auth_mode_gate envNoAuth verifyNone hsFrameT1 hsValT1).1 rfl [t1] t1
      rfl rfl rfl rfl,
   (auth_mode_gate envNone verifyNone hsFrameT1 hsValT1).2
      (by decide) rfl rfl [t1]⟩

/-- C6: a handshake that passes the authentication gate but whose serverId
matches no target in the store closes the client with code 1008 and reason
Server necunoscut, and no SSH dial is attempted. -/
theorem unknown_target_closes (env : Env) (verify : List Nat → Bool)
    (servers : List Server) (raw : List Nat) (m : JVal)
    (hp : jsonParse raw = some m)
    (hauth : useAuth env = false ∨
      tokenAccepted verify (getField m (strBytes "token")) = true)
    (hfind : findServer servers (getField m (strBytes "serverId")) = none) :
    handleFirstMessage env verify servers raw =
        HsResult.closeClient 1008 "Server necunoscut" ∧
      ∀ h p u, handleFirstMessage env verify servers raw ≠ HsResult.dial h p u := by
  have hmain : handleFirstMessage env verify servers raw =
      HsResult.closeClient 1008 "Server necunoscut" := by
    cases hauth with
    | inl ha => simp [handleFirstMessage, hp, ha, hfind]
    | inr ha => simp [handleFirstMessage, hp, ha, hfind]
  refine ⟨hmain, ?_⟩
  intro h p u
  rw [hmain]
  intro hcontra
  cases hcontra

/-- C6 witness: the handshake naming the unknown target missing is closed
with code 1008 and reason Server necunoscut and never dials. -/
theorem unknown_target_closes_witness :
    handleFirstMessage envNoAuth verifyNone [t1] hsFrameMissing =
        HsResult.closeClient 1008 "Server necunoscut" ∧
      ∀ h p u, handleFirstMessage envNoAuth verifyNone [t1] hsFrameMissing ≠
        HsResult.dial h p u :=
  unknown_target_closes envNoAuth verifyNone [t1] hsFrameMissing _ rfl
    (Or.inl rfl) rfl

/-- A host the admission check does not accept is rejected with exactly the
message used as the close reason. -/
theorem assertAllowedHost_not_ok (e : Env) (host : String)
    (h : assertAllowedHost e host ≠ Except.ok ()) :
    assertAllowedHost e host =
      Except.error ("Host " ++ host ++ " nu este permis") := by
  by_cases h1 : (ALLOWED e).length = 0
  · exact absurd (by simp [assertAllowedHost, h1]) h
  · by_cases h2 : (ALLOWED e).contains host
    · have hm : host ∈ ALLOWED e := List.elem_iff.mp h2
      exact absurd (by simp [assertAllowedHost, h1, hm]) h
    · have hm : ¬ host ∈ ALLOWED e := fun hx => h2 (List.elem_iff.mpr hx)
      simp [assertAllowedHost, h1, hm]

/-- C7: host admission.  With an empty allow-list every host is admitted;
with a non-empty allow-list a host is admitted exactly when it is an exact
string member of the list; and a handshake that reaches admission with a
denied host closes the client with code 1008. -/
theorem host_admission (env : Env) (host : String) :
    (ALLOWED env = [] → assertAllowedHost env host = Except.ok ()) ∧
    (ALLOWED env ≠ [] →
      (assertAllowedHost env host = Except.ok () ↔ host ∈ ALLOWED env)) ∧
    (∀ (verify : List Nat → Bool) (servers : List Server) (raw : List Nat)
        (m : JVal) (srv : Server),
      jsonParse raw = some m →
      (useAuth env = false ∨
        tokenAccepted verify (getField m (strBytes "token")) = true) →
      findServer servers (getField m (strBytes "serverId")) = some srv →
      assertAllowedHost env srv.host ≠ Except.ok () →
      handleFirstMessage env verify servers raw =
        HsResult.closeClient 1008 ("Host " ++ srv.host ++ " nu este permis")) := by
  refine ⟨?_, ?_, ?_⟩
  · intro hA
    simp [assertAllowedHost, hA]
  · intro hne
    have h1 : ¬ (ALLOWED env).length = 0 := by
      simpa [List.length_eq_zero] using hne
    by_cases h2 : (ALLOWED env).contains host
    · have hm : host ∈ ALLOWED env := List.elem_iff.mp h2
      simp [assertAllowedHost, h1, h2, hm]
    · have hm : ¬ host ∈ ALLOWED env := fun hx => h2 (List.elem_iff.mpr hx)
      simp [assertAllowedHost, h1, h2, hm]
  · intro verify servers raw m srv hp hauth hfind hden
    have herr := assertAllowedHost_not_ok env srv.host hden
    cases hauth with
    | inl ha => simp [handleFirstMessage, hp, ha, hfind, herr]
    | inr ha => simp [handleFirstMessage, hp, ha, hfind, herr]

/-- C7 witness: with an empty allow-list an arbitrary host is admitted; with
the allow-list restricted to 10.0.0.2 that host is admitted and a concrete
handshake for a target on 10.0.0.9 is closed with code 1008. -/
theorem host_admission_witness :
    assertAllowedHost envNone "10.0.0.9" = Except.ok () ∧
    assertAllowedHost envAllow "10.0.0.2" = Except.ok () ∧
    handleFirstMessage envAllow verifyNone [t9] hsFrameT9 =
      HsResult.closeClient 1008 "Host 10.0.0.9 nu este permis" :=
  ⟨(host_admission envNone "10.0.0.9").1 (by decide),
   ((host_admission envAllow "10.0.0.2").2.1 (by decide)).mpr (by decide),
   (host_admission envAllow "10.0.0.2").2.2 verifyNone [t9] hsFrameT9 _ t9 rfl
     (Or.inl rfl) rfl (fun hcon => Except.noConfusion hcon)⟩

/-- C9: the PTY request uses terminal type xterm-256color; a cols field equal
to zero falls back to 80 columns and a rows field equal to zero falls back to
24 rows, while nonzero integer fields are used as provided. -/
theorem shell_dimension_fallback (cfg : JVal) :
    (shellOpts cfg).term = "xterm-256color" ∧
    (getField cfg (strBytes "cols") = some (JVal.jnum 0) →
      (shellOpts cfg).cols = JVal.jnum 80) ∧
    (getField cfg (strBytes "rows") = some (JVal.jnum 0) →
      (shellOpts cfg).rows = JVal.jnum 24) ∧
    (∀ n : Int, n ≠ 0 → getField cfg (strBytes "cols") = some (JVal.jnum n) →
      (shellOpts cfg).cols = JVal.jnum n) ∧
    (∀ n : Int, n ≠ 0 → getField cfg (strBytes "rows") = some (JVal.jnum n) →
      (shellOpts cfg).rows = JVal.jnum n) := by
  refine ⟨rfl, ?_, ?_, ?_, ?_⟩
  · intro h; simp [shellOpts, jsOr, h, jsTruthy]
  · intro h; simp [shellOpts, jsOr, h, jsTruthy]
  · intro n hn h; simp [shellOpts, jsOr, h, jsTruthy, hn]
  · intro n hn h; simp [shellOpts, jsOr, h, jsTruthy, hn]

/-- C9 witness: a handshake with both dimensions zero gets the 80 by 24
fallback, and the concrete handshake with cols 120 and rows 40 keeps its
dimensions; the terminal type is xterm-256color. -/
theorem shell_dimension_fallback_witness :
    (shellOpts cfgZero).term = "xterm-256color" ∧
    (shellOpts cfgZero).cols = JVal.jnum 80 ∧
    (shellOpts cfgZero).rows = JVal.jnum 24 ∧
    (shellOpts hsValT1).cols = JVal.jnum 120 ∧
    (shellOpts hsValT1).rows = JVal.jnum 40 :=
  ⟨(shell_dimension_fallback cfgZero).1,
   (shell_dimension_fallback cfgZero).2.1 rfl,
   (shell_dimension_fallback cfgZero).2.2.1 rfl,
   (shell_dimension_fallback hsValT1).2.2.2.1 120 (by decide) rfl,
   (shell_dimension_fallback hsValT1).2.2.2.2 40 (by decide) rfl⟩

end SSHRelay
